import Mathlib

/-!
Verification of the update-notification core of `arch-audit-gtk`.

The definitions below are a shallow embedding of `src/gui.rs`.  The crate
modules `updater.rs`, `notify.rs` and `config.rs` are not part of the
sources available here; the data they provide (the `Status`/`Update` model,
the trigger `Event`, and the Coordinator loop) is modelled from the
specification, and each such definition is marked in its doc comment.
-/

namespace ArchAuditGtk

/-- Menu-label constant `CHECK_FOR_UPDATE` from `src/gui.rs`. -/
def CHECK_FOR_UPDATE : String := "Check for updates"

/-- Menu-label constant `CHECKING` from `src/gui.rs`. -/
def CHECKING : String := "Checking..."

/-- Menu-label constant `QUIT` from `src/gui.rs`. -/
def QUIT : String := "Quit"

/-- The `Icon` enum of `src/gui.rs`: the closed set of tray-icon states. -/
inductive Icon
  | check
  | alert
  | cross
deriving DecidableEq, Repr

/-- `Icon::as_str` from `src/gui.rs`. -/
def Icon.asStr : Icon → String
  | .check => "check"
  | .alert => "alert"
  | .cross => "cross"

/-- `<Icon as FromStr>::from_str` from `src/gui.rs`: the `match` on the
string falls through to `bail!("Invalid icon name: {:?}", s)`. -/
def Icon.fromStr (s : String) : Except String Icon :=
  if s = "check" then .ok .check
  else if s = "alert" then .ok .alert
  else if s = "cross" then .ok .cross
  else .error ("Invalid icon name: " ++ reprStr s)

/-- The `Theme` newtype of `src/gui.rs`, wrapping the validated string. -/
structure Theme where
  s : String
deriving DecidableEq, Repr

/-- `Theme::as_str` from `src/gui.rs`. -/
def Theme.asStr (t : Theme) : String := t.s

/-- `<Theme as Default>::default` from `src/gui.rs`. -/
def Theme.default : Theme := ⟨"default"⟩

/-- The error message built by `bail!("Theme contains invalid characters:
{:?}", s)` in `src/gui.rs`; `{:?}` renders the offending input. -/
def themeErr (s : String) : String :=
  "Theme contains invalid characters: " ++ reprStr s

/-- `<Theme as FromStr>::from_str` from `src/gui.rs`:
`s.chars().all(|c| ('a'..='z').contains(&c))` guards construction. -/
def Theme.fromStr (s : String) : Except String Theme :=
  if s.data.all (fun c => decide ('a' ≤ c) && decide (c ≤ 'z')) then
    .ok ⟨s⟩
  else
    .error (themeErr s)

/-- `<Theme as Deserialize>::deserialize` from `src/gui.rs`, after the inner
`String::deserialize` succeeded with `s`: `FromStr::from_str(&s)
.map_err(de::Error::custom)` — the validation error is propagated. -/
def Theme.deserialize (s : String) : Except String Theme :=
  Theme.fromStr s

/-- Modelled from the spec: the `Update` record of the missing `updater.rs`
module — a human-readable `text` and an advisory `link`, immutable once
constructed (spec §3). -/
structure Update where
  text : String
  link : String
deriving DecidableEq, Repr

/-- Modelled from the spec: the `Status` sum type of the missing
`updater.rs` module — `UpToDate`, `MissingUpdates(ordered sequence of
Update)`, `Error(message)` (spec §3). -/
inductive Status
  | upToDate
  | missingUpdates (updates : List Update)
  | error (message : String)
deriving DecidableEq, Repr

/-- Modelled from the spec: the derived icon identifier of a `Status`
(missing `updater.rs`): all clear → `Check`, updates pending → `Alert`,
failure → `Cross` (spec §3, §4.4). -/
def Status.icon : Status → Icon
  | .upToDate => .check
  | .missingUpdates _ => .alert
  | .error _ => .cross

/-- Modelled from the spec: the derived display text of a `Status` (missing
`updater.rs`).  The spec fixes only that the mapping is total and
deterministic, not the exact wording. -/
def Status.text : Status → String
  | .upToDate => "No missing security updates"
  | .missingUpdates _ => "Missing security updates"
  | .error m => "Error: " ++ m

/-- Modelled from the spec: the trigger `Event` of the missing `notify.rs`
module — a zero-payload tag (`FileChanged` from the Watcher, `Click` from
the user, as sent in `src/gui.rs`). -/
inductive Event
  | click
  | fileChanged
deriving DecidableEq, Repr

/-- One entry of the submenu built for `MissingUpdates` in `src/gui.rs`:
a `gtk::MenuItem` labelled `update.text` whose `connect_activate` handler
opens `update.link`. -/
structure MenuEntry where
  label : String
  onActivateOpens : String
deriving DecidableEq, Repr

/-- The submenu entry built for one `Update` in the `for update in updates`
loop of `src/gui.rs`. -/
def entryOf (u : Update) : MenuEntry :=
  { label := u.text, onActivateOpens := u.link }

/-- The observable effects of one execution of the `result_rx.attach`
closure in `src/gui.rs`: the label written to `checking_mi`, the label
written to `status_mi`, the argument of `status_mi.set_submenu`, and the
icon passed to `tray_icon.set_icon`. -/
structure Render where
  checkLabel : String
  statusLabel : String
  submenu : Option (List MenuEntry)
  trayIcon : Icon
deriving DecidableEq, Repr

/-- The `result_rx.attach` closure of `src/gui.rs`: restore the check item
label, set the status text, build a submenu only in the
`Status::MissingUpdates(ref updates) if !updates.is_empty()` arm (one entry
per update, in order), otherwise `set_submenu(None)`, then set the icon. -/
def handleResult (msg : Status) : Render :=
  { checkLabel := CHECK_FOR_UPDATE
    statusLabel := msg.text
    submenu :=
      match msg with
      | .missingUpdates updates =>
          if !updates.isEmpty then some (updates.map entryOf) else none
      | _ => none
    trayIcon := msg.icon }

/-- One observable action of the `checking_mi.connect_activate` closure in
`src/gui.rs`. -/
inductive UIAction
  | setCheckLabel (label : String)
  | sendTrigger (e : Event)
deriving DecidableEq, Repr

/-- The `checking_mi.connect_activate` closure of `src/gui.rs`, as the
sequence of actions it performs: `mi.set_label(CHECKING)` first, then
`update_tx.send(Event::Click)`. -/
def onCheckingActivate : List UIAction :=
  [UIAction.setCheckLabel CHECKING, UIAction.sendTrigger Event.click]

/-- Modelled from the spec: the observable counters of the Coordinator of
the missing `updater.rs` module (spec §4.2) — whether a Checker invocation
is in flight (`Running` vs `Idle`), how many trigger events are queued on
the Trigger Channel, and how many Checker invocations have been started and
results published so far. -/
structure CoState where
  running : Bool
  pending : Nat
  invocations : Nat
  results : Nat
deriving DecidableEq, Repr

/-- The Coordinator before any event: `Idle`, empty queue, no checks run. -/
def CoState.init : CoState := ⟨false, 0, 0, 0⟩

/-- An event visible to the Coordinator: a trigger event arriving on the
Trigger Channel, the Coordinator waking from its blocking receive, or the
in-flight Checker invocation completing. -/
inductive CoEvent
  | trigger
  | recv
  | complete
deriving DecidableEq, Repr

/-- Modelled from the spec: the `Idle --(receive TriggerEvent)--> Running`
transition (spec §4.2) — when `Idle` with at least one queued trigger,
drain and discard every queued trigger and start exactly one Checker
invocation; otherwise do nothing. -/
def dispatch (s : CoState) : CoState :=
  if s.running = false ∧ 0 < s.pending then
    { running := true, pending := 0,
      invocations := s.invocations + 1, results := s.results }
  else s

/-- Modelled from the spec: one step of the Coordinator (spec §4.2).  A
`trigger` only enqueues (the channel never drops events, §4.1); `recv` is
the Coordinator's receive-and-drain step when it is `Idle`; `complete`
publishes the result of the in-flight check and, if triggers arrived while
`Running`, immediately drains them and re-enters `Running` for exactly one
follow-up check. -/
def coStep (s : CoState) : CoEvent → CoState
  | .trigger => { s with pending := s.pending + 1 }
  | .recv => dispatch s
  | .complete =>
      if s.running then
        dispatch { s with running := false, results := s.results + 1 }
      else s

/-- The Coordinator after a finite trace of events. -/
def coRun (s : CoState) (es : List CoEvent) : CoState := es.foldl coStep s

/-- The number of Checker invocations currently outstanding. -/
def CoState.active (s : CoState) : Nat := s.invocations - s.results

/-- The bookkeeping invariant of the Coordinator: the invocation count
exceeds the result count by one exactly while a check is `Running`. -/
def CoInv (s : CoState) : Prop :=
  s.invocations = s.results + cond s.running 1 0

theorem coInv_dispatch {s : CoState} (h : CoInv s) : CoInv (dispatch s) := by
  unfold dispatch
  split
  · rename_i hc
    simp only [CoInv] at h ⊢
    simp [hc.1] at h
    simp [h]
  · exact h

theorem coInv_step {s : CoState} (h : CoInv s) (e : CoEvent) :
    CoInv (coStep s e) := by
  cases e with
  | trigger => simpa [CoInv, coStep] using h
  | recv => exact coInv_dispatch h
  | complete =>
      simp only [coStep]
      split
      · rename_i hr
        apply coInv_dispatch
        simp only [CoInv] at h ⊢
        simp [hr] at h
        simp [h]
      · exact h

theorem coInv_run {s : CoState} (h : CoInv s) (es : List CoEvent) :
    CoInv (coRun s es) := by
  induction es generalizing s with
  | nil => exact h
  | cons e es ih => exact ih (coInv_step h e)

/-- A run consisting only of trigger arrivals just accumulates the queue:
no Checker invocation starts from the channel side. -/
theorem coRun_triggers (n : Nat) (s : CoState) :
    coRun s (List.replicate n CoEvent.trigger) =
      { s with pending := s.pending + n } := by
  induction n generalizing s with
  | zero => simp [coRun]
  | succ n ih =>
      simp only [List.replicate_succ, coRun, List.foldl_cons, coStep]
      have := ih { s with pending := s.pending + 1 }
      simp only [coRun] at this
      rw [this]
      simp [Nat.add_assoc, Nat.add_comm 1 n]

/-- The guard of `Theme::from_str` holds exactly when every character of
the input is a lowercase ASCII letter. -/
theorem theme_cond_iff (raw : String) :
    (raw.data.all (fun c => decide ('a' ≤ c) && decide (c ≤ 'z')) = true) ↔
      ∀ c ∈ raw.data, 'a' ≤ c ∧ c ≤ 'z' := by
  simp [List.all_eq_true, Bool.and_eq_true]

/-- `Theme::from_str` on an input passing the guard. -/
theorem theme_fromStr_eq_ok {raw : String}
    (hb : raw.data.all (fun c => decide ('a' ≤ c) && decide (c ≤ 'z')) = true) :
    Theme.fromStr raw = Except.ok ⟨raw⟩ := by
  unfold Theme.fromStr
  rw [if_pos hb]

/-- `Theme::from_str` on an input failing the guard. -/
theorem theme_fromStr_eq_error {raw : String}
    (hb : ¬ raw.data.all (fun c => decide ('a' ≤ c) && decide (c ≤ 'z')) = true) :
    Theme.fromStr raw = Except.error (themeErr raw) := by
  unfold Theme.fromStr
  rw [if_neg hb]

/-- `dispatch` on an `Idle` Coordinator with a non-empty queue: drain the
queue and start exactly one invocation. -/
theorem dispatch_fires {s : CoState} (h1 : s.running = false)
    (h2 : 0 < s.pending) :
    dispatch s =
      { running := true, pending := 0,
        invocations := s.invocations + 1, results := s.results } := by
  unfold dispatch
  rw [if_pos ⟨h1, h2⟩]

/-- C1: for every sequence of trigger events, at most one Checker
invocation is active at any time; no invocation starts while one is
outstanding; a burst of `n ≥ 1` triggers received while `Idle` starts
exactly one invocation; and `k ≥ 1` triggers queued while `Running` cause
exactly one follow-up invocation when the current check completes, not one
per queued trigger. -/
theorem coordinator_single_flight :
    (∀ es : List CoEvent, (coRun CoState.init es).active ≤ 1) ∧
    (∀ (s : CoState) (e : CoEvent), s.running = true → e ≠ CoEvent.complete →
      (coStep s e).invocations = s.invocations) ∧
    (∀ n : Nat, 0 < n →
      coRun CoState.init
          (List.replicate n CoEvent.trigger ++ [CoEvent.recv]) =
        ⟨true, 0, 1, 0⟩) ∧
    (∀ k i r : Nat, 0 < k →
      coRun ⟨true, 0, i, r⟩
          (List.replicate k CoEvent.trigger ++ [CoEvent.complete]) =
        ⟨true, 0, i + 1, r + 1⟩) := by
  refine ⟨?_, ?_, ?_, ?_⟩
  · intro es
    have h := coInv_run (s := CoState.init) (by simp [CoInv, CoState.init]) es
    simp only [CoInv] at h
    cases hb : (coRun CoState.init es).running
    · rw [hb] at h
      simp only [Bool.cond_false] at h
      simp only [CoState.active]
      omega
    · rw [hb] at h
      simp only [Bool.cond_true] at h
      simp only [CoState.active]
      omega
  · intro s e hr he
    cases e with
    | trigger => rfl
    | recv => simp [coStep, dispatch, hr]
    | complete => exact absurd rfl he
  · intro n hn
    have h1 : coRun CoState.init (List.replicate n CoEvent.trigger) =
        ⟨false, n, 0, 0⟩ := by
      simpa [CoState.init] using coRun_triggers n CoState.init
    have h2 : coRun CoState.init
          (List.replicate n CoEvent.trigger ++ [CoEvent.recv]) =
        coStep (coRun CoState.init (List.replicate n CoEvent.trigger))
          CoEvent.recv := by
      simp [coRun, List.foldl_append]
    rw [h2, h1]
    show dispatch ⟨false, n, 0, 0⟩ = _
    rw [dispatch_fires rfl hn]
  · intro k i r hk
    have h1 : coRun (⟨true, 0, i, r⟩ : CoState)
          (List.replicate k CoEvent.trigger) = ⟨true, k, i, r⟩ := by
      simpa using coRun_triggers k ⟨true, 0, i, r⟩
    have h2 : coRun (⟨true, 0, i, r⟩ : CoState)
          (List.replicate k CoEvent.trigger ++ [CoEvent.complete]) =
        coStep (coRun ⟨true, 0, i, r⟩ (List.replicate k CoEvent.trigger))
          CoEvent.complete := by
      simp [coRun, List.foldl_append]
    rw [h2, h1]
    show dispatch ⟨false, k, i, r + 1⟩ = _
    rw [dispatch_fires rfl hk]

/-- C1 witness: a burst of three triggers while `Idle` starts exactly one
check, and two triggers queued while `Running` cause exactly one follow-up
check on completion. -/
theorem coordinator_single_flight_witness :
    coRun CoState.init
        (List.replicate 3 CoEvent.trigger ++ [CoEvent.recv]) =
      ⟨true, 0, 1, 0⟩ ∧
    coRun ⟨true, 0, 1, 0⟩
        (List.replicate 2 CoEvent.trigger ++ [CoEvent.complete]) =
      ⟨true, 0, 2, 1⟩ :=
  ⟨coordinator_single_flight.2.2.1 3 (by decide),
   coordinator_single_flight.2.2.2 2 1 0 (by decide)⟩

/-- C2: `Theme::from_str` succeeds iff every character of the input is a
lowercase ASCII letter; on success the resulting `Theme` stores exactly the
input string, and on failure the descriptive error names the invalid
input. -/
theorem theme_fromStr_charset (raw : String) :
    (Theme.fromStr raw = Except.ok ⟨raw⟩ ↔ ∀ c ∈ raw.data, 'a' ≤ c ∧ c ≤ 'z') ∧
    (∀ t, Theme.fromStr raw = Except.ok t → t = ⟨raw⟩) ∧
    ((¬ ∀ c ∈ raw.data, 'a' ≤ c ∧ c ≤ 'z') →
      Theme.fromStr raw = Except.error (themeErr raw)) := by
  by_cases hc : ∀ c ∈ raw.data, 'a' ≤ c ∧ c ≤ 'z'
  · have hok := theme_fromStr_eq_ok ((theme_cond_iff raw).mpr hc)
    refine ⟨⟨fun _ => hc, fun _ => hok⟩, ?_, fun hn => absurd hc hn⟩
    intro t ht
    rw [hok] at ht
    injection ht with h
    exact h.symm
  · have herr := theme_fromStr_eq_error
      (fun h => hc ((theme_cond_iff raw).mp h))
    refine ⟨⟨fun h => ?_, fun h => absurd h hc⟩, ?_, fun _ => herr⟩
    · rw [herr] at h
      exact absurd h (by simp)
    · intro t ht
      rw [herr] at ht
      exact absurd ht (by simp)

/-- C2 witness: `"Check"` contains a non-lowercase character, so parsing it
yields the descriptive error. -/
theorem theme_fromStr_charset_witness :
    Theme.fromStr "Check" = Except.error (themeErr "Check") :=
  (theme_fromStr_charset "Check").2.2 (by decide)

/-- C3 counterexample: contrary to the claim, `Theme::from_str("")` does
not fail — `chars().all(..)` is vacuously true on the empty string, so the
empty theme is accepted. -/
theorem theme_parse_empty_accepted :
    Theme.fromStr "" = Except.ok ⟨""⟩ := rfl

/-- C3 amended: `parse("default")` succeeds and round-trips to
`"default"`; `parse("check")` succeeds; `parse("../etc")`,
`parse("Check")` and `parse("check1")` fail with a validation error; but
`parse("")` succeeds (the all-lowercase check is vacuous on the empty
string). -/
theorem theme_parse_examples :
    Theme.fromStr "default" = Except.ok ⟨"default"⟩ ∧
    Theme.asStr ⟨"default"⟩ = "default" ∧
    Theme.fromStr "check" = Except.ok ⟨"check"⟩ ∧
    (Theme.fromStr "../etc").isOk = false ∧
    (Theme.fromStr "Check").isOk = false ∧
    (Theme.fromStr "check1").isOk = false ∧
    Theme.fromStr "" = Except.ok ⟨""⟩ := by
  refine ⟨rfl, rfl, rfl, ?_, ?_, ?_, rfl⟩ <;> decide

/-- C4: a `MissingUpdates` with an empty list is rendered as a plain status
entry with `set_submenu(None)`, exactly as `UpToDate` is; a submenu is
built only when the list is non-empty. -/
theorem empty_missing_updates_plain :
    (handleResult (Status.missingUpdates [])).submenu = none ∧
    (handleResult Status.upToDate).submenu = none ∧
    (∀ updates : List Update, updates ≠ [] →
      (handleResult (Status.missingUpdates updates)).submenu =
        some (updates.map entryOf)) := by
  refine ⟨rfl, rfl, ?_⟩
  intro updates h
  cases updates with
  | nil => exact absurd rfl h
  | cons u us => rfl

/-- C4 witness: a one-element list does get a submenu, while the empty list
and `UpToDate` do not. -/
theorem empty_missing_updates_plain_witness :
    (handleResult (Status.missingUpdates [⟨"pkg", "url"⟩])).submenu =
      some [entryOf ⟨"pkg", "url"⟩] :=
  empty_missing_updates_plain.2.2 [⟨"pkg", "url"⟩] (by simp)

/-- C5: for a non-empty `MissingUpdates` list the handler builds exactly
one submenu entry per `Update`, in the list's own order, labelled with that
update's `text`, and activating an entry opens that update's `link`. -/
theorem missing_updates_menu_order (updates : List Update)
    (h : updates ≠ []) :
    (handleResult (Status.missingUpdates updates)).submenu =
      some (updates.map entryOf) ∧
    Option.map (List.map MenuEntry.label)
        (handleResult (Status.missingUpdates updates)).submenu =
      some (updates.map Update.text) ∧
    Option.map (List.map MenuEntry.onActivateOpens)
        (handleResult (Status.missingUpdates updates)).submenu =
      some (updates.map Update.link) := by
  have hs : (handleResult (Status.missingUpdates updates)).submenu =
      some (updates.map entryOf) := by
    cases updates with
    | nil => exact absurd rfl h
    | cons u us => rfl
  refine ⟨hs, ?_, ?_⟩ <;>
    · rw [hs]
      simp [List.map_map, entryOf, Function.comp]

/-- C5 witness: two updates yield the two labels in order. -/
theorem missing_updates_menu_order_witness :
    Option.map (List.map MenuEntry.label)
        (handleResult (Status.missingUpdates
          [⟨"pkg1", "url1"⟩, ⟨"pkg2", "url2"⟩])).submenu =
      some ["pkg1", "pkg2"] :=
  ((missing_updates_menu_order [⟨"pkg1", "url1"⟩, ⟨"pkg2", "url2"⟩]
      (by simp)).2.1).trans rfl

/-- C6 counterexample: deserializing the invalid theme string `"Check"`
yields the propagated validation error, not the default theme — contrary
to the claim that an invalid string deserializes to the default value. -/
theorem theme_deserialize_invalid_is_error :
    Theme.deserialize "Check" = Except.error (themeErr "Check") := rfl

/-- C6 amended: deserializing an invalid theme string fails with the
descriptive validation error, propagated to the caller via
`de::Error::custom`, rather than yielding the default value; the
`"default"` fallback is provided separately by the `Default` impl. -/
theorem theme_deserialize_error_propagates (s : String)
    (h : ¬ ∀ c ∈ s.data, 'a' ≤ c ∧ c ≤ 'z') :
    Theme.deserialize s = Except.error (themeErr s) ∧
    Theme.deserialize s ≠ Except.ok Theme.default ∧
    Theme.default.asStr = "default" := by
  have herr := theme_fromStr_eq_error (fun hb => h ((theme_cond_iff s).mp hb))
  refine ⟨herr, ?_, rfl⟩
  show Theme.fromStr s ≠ Except.ok Theme.default
  rw [herr]
  simp

/-- C6 witness: the path-traversal string `"../etc"` is rejected with an
error and never becomes a `Theme`. -/
theorem theme_deserialize_error_propagates_witness :
    Theme.deserialize "../etc" = Except.error (themeErr "../etc") ∧
    Theme.deserialize "../etc" ≠ Except.ok Theme.default ∧
    Theme.default.asStr = "default" :=
  theme_deserialize_error_propagates "../etc" (by decide)

/-- C7: the default `Theme` is exactly the literal string `"default"`,
which satisfies the lowercase-ASCII guard of `Theme::from_str` and is
accepted by it unchanged. -/
theorem theme_default_value :
    Theme.default.asStr = "default" ∧
    Theme.default.s.data.all
      (fun c => decide ('a' ≤ c) && decide (c ≤ 'z')) = true ∧
    Theme.fromStr Theme.default.asStr = Except.ok Theme.default :=
  ⟨rfl, by decide, rfl⟩

/-- C8: the click handler of the check menu item performs
`set_label(CHECKING)` strictly before `send(Event::Click)`, so the
"checking" visual state is reflected before the trigger is even sent. -/
theorem click_sets_checking_before_send :
    UIAction.setCheckLabel CHECKING ∈ onCheckingActivate ∧
    UIAction.sendTrigger Event.click ∈ onCheckingActivate ∧
    onCheckingActivate.indexOf (UIAction.setCheckLabel CHECKING) <
      onCheckingActivate.indexOf (UIAction.sendTrigger Event.click) := by
  refine ⟨?_, ?_, ?_⟩ <;> decide

/-- C9: `Icon::as_str`/`Icon::from_str` form a round-trip on the closed
variant set `{"check", "alert", "cross"}`, and every other string is
rejected with a descriptive error. -/
theorem icon_roundtrip (s : String) :
    (∀ i : Icon, Icon.fromStr i.asStr = Except.ok i) ∧
    (∀ i : Icon, i.asStr = "check" ∨ i.asStr = "alert" ∨ i.asStr = "cross") ∧
    (s ≠ "check" → s ≠ "alert" → s ≠ "cross" →
      Icon.fromStr s = Except.error ("Invalid icon name: " ++ reprStr s)) := by
  refine ⟨?_, ?_, ?_⟩
  · intro i
    cases i <;> rfl
  · intro i
    cases i <;> simp [Icon.asStr]
  · intro h1 h2 h3
    unfold Icon.fromStr
    rw [if_neg h1, if_neg h2, if_neg h3]

/-- C9 witness: `"foo"` is outside the variant set and is rejected. -/
theorem icon_roundtrip_witness :
    Icon.fromStr "foo" = Except.error ("Invalid icon name: " ++ reprStr "foo") :=
  (icon_roundtrip "foo").2.2 (by decide) (by decide) (by decide)

/-- C10: for every delivered `Status`, the handler restores the check item
label to `CHECK_FOR_UPDATE` (so `CHECKING` never persists), sets the status
label from the message's display text, and sets the tray icon from the
message's icon. -/
theorem handler_restores_labels (msg : Status) :
    (handleResult msg).checkLabel = CHECK_FOR_UPDATE ∧
    (handleResult msg).checkLabel ≠ CHECKING ∧
    (handleResult msg).statusLabel = msg.text ∧
    (handleResult msg).trayIcon = msg.icon := by
  refine ⟨rfl, ?_, rfl, rfl⟩
  show CHECK_FOR_UPDATE ≠ CHECKING
  decide

end ArchAuditGtk
